import Mathlib

/-
Verification of the subtitle resolution and synchronization engine of the
bilibili-text repository, against its natural-language specification.

The embedding translates the relevant TypeScript sources:
  - services/subtitleParser.ts   (parseSubtitles, findActiveSubtitle)
  - services/indexedDBStorage.ts (IndexedDBService cache operations)
  - services/speechRecognition.ts (SpeechRecognitionService)
  - app/api/bilibili/speech/transcribe/route.ts (error statuses)
  - app/video/[videoId]/page.tsx (transcription trigger effect)

Playback times are modelled as rationals (JavaScript numbers carrying
seconds), wall-clock timestamps as integers (milliseconds since epoch).
-/

namespace BilibiliText

/-- One subtitle line, from types/subtitle.ts (SubtitleSegment). The
optional confidence field is never consulted by the verified code paths
and is omitted. -/
structure SubtitleSegment where
  id : String
  videoId : String
  startTime : ℚ
  endTime : ℚ
  text : String
  index : ℕ
deriving DecidableEq, Repr

/-- One raw record of the Bilibili subtitle JSON shape, from
services/subtitleParser.ts (BilibiliSubtitleItem). The source fields are
named from and to; from is a Lean keyword, hence fromTime and toTime.
A field that at runtime is not a number (the source guards with
typeof item.from !== 'number') is modelled as none. The content field is
modelled as a string, matching the declared TypeScript type. -/
structure RawSubtitleItem where
  fromTime : Option ℚ
  toTime : Option ℚ
  content : String
deriving DecidableEq, Repr

/-- JavaScript String.prototype.trim: drop whitespace from both ends.
Modelled structurally over the character list so that it evaluates. -/
def jsTrim (s : String) : String :=
  String.mk
    (((s.data.dropWhile Char.isWhitespace).reverse.dropWhile
        Char.isWhitespace).reverse)

/-- The raw argument of parseSubtitles: the source first checks
Array.isArray and returns an empty list for anything that is not an
array. -/
inductive RawSubtitleData where
  | arr (items : List RawSubtitleItem)
  | notArray
deriving DecidableEq, Repr

/-- The per-item filter of parseSubtitles (services/subtitleParser.ts,
lines 1017-1041): both times must be numeric, timing must satisfy
0 <= from < to, and the content must be non-blank after trimming. -/
def validSubtitleItem (item : RawSubtitleItem) : Bool :=
  match item.fromTime, item.toTime with
  | some f, some t =>
      if f < 0 || t ≤ f then false
      else if (jsTrim item.content).length = 0 then false
      else true
  | _, _ => false

/-- The map step of parseSubtitles: build a segment from a surviving item
and its post-filter index. Filtered items always carry numeric times, so
the defaults of getD are never reached. -/
def mkSegment (videoId : String) (index : ℕ) (item : RawSubtitleItem) :
    SubtitleSegment :=
  { id := "subtitle-" ++ toString index
    videoId := videoId
    startTime := item.fromTime.getD 0
    endTime := item.toTime.getD 0
    text := (jsTrim item.content)
    index := index }

/-- parseSubtitles (services/subtitleParser.ts, lines 1007-1050): a
non-array input yields an empty result; otherwise invalid items are
filtered out and the survivors are mapped, in input order, to segments
numbered densely from 0. -/
def parseSubtitles (raw : RawSubtitleData) (videoId : String) :
    List SubtitleSegment :=
  match raw with
  | .notArray => []
  | .arr items =>
      (items.filter validSubtitleItem).enum.map
        (fun p => mkSegment videoId p.1 p.2)

/-- The predicate of findActiveSubtitle: the segment is active at time t
when startTime <= t < endTime. -/
def isActiveAt (t : ℚ) (s : SubtitleSegment) : Bool :=
  decide (s.startTime ≤ t) && decide (t < s.endTime)

/-- findActiveSubtitle (services/subtitleParser.ts, lines 1081-1090):
Array.prototype.find over the segment list, null when no segment
matches. -/
def findActiveSubtitle (currentTime : ℚ) (subtitles : List SubtitleSegment) :
    Option SubtitleSegment :=
  subtitles.find? (isActiveAt currentTime)

/-- Subtitle source tag, from types/speechRecognition.ts: the source
field of a cache entry is the string union native | speech-recognition. -/
inductive SubtitleSource where
  | native
  | speechRecognition
deriving DecidableEq, Repr

/-- CACHE_TTL from services/indexedDBStorage.ts line 753: thirty days in
milliseconds. -/
def CACHE_TTL : ℤ := 30 * 24 * 60 * 60 * 1000

/-- A persisted cache entry, from types/speechRecognition.ts
(SubtitleCache), keyed by videoId. -/
structure SubtitleCache where
  videoId : String
  subtitles : List SubtitleSegment
  cachedAt : ℤ
  expiresAt : ℤ
  source : SubtitleSource
  language : String
deriving DecidableEq, Repr

/-- The state of IndexedDBService (services/indexedDBStorage.ts).
available models isAvailable(), i.e. whether the environment has
window.indexedDB at all; initFails models openDB rejecting inside
initialize(), which rethrows INDEXEDDB_INIT_FAILED — the rejected
promise is cached in initPromise, so the failure is sticky and every
operation that awaits this.initialize() outside its try block
propagates it; opFails models the underlying object-store operations
throwing inside the try blocks (quota exceeded, corruption mid
operation); store is the subtitle-cache object store, a list of entries
keyed by videoId. -/
structure IndexedDBState where
  available : Bool
  initFails : Bool
  opFails : Bool
  store : List SubtitleCache
deriving DecidableEq, Repr

/-- IDBObjectStore.get on the subtitle-cache store: the entry whose key
equals videoId, if any. -/
def storeGet (store : List SubtitleCache) (videoId : String) :
    Option SubtitleCache :=
  store.find? (fun c => c.videoId == videoId)

/-- IDBObjectStore.delete: remove the entry keyed videoId. -/
def storeDelete (store : List SubtitleCache) (videoId : String) :
    List SubtitleCache :=
  store.filter (fun c => !(c.videoId == videoId))

/-- IDBObjectStore.put with an in-line key path: replaces any entry with
the same videoId. -/
def storePut (store : List SubtitleCache) (entry : SubtitleCache) :
    List SubtitleCache :=
  entry :: storeDelete store entry.videoId

/-- The errors the IndexedDBService operations can throw:
INDEXEDDB_NOT_AVAILABLE and CACHE_SAVE_FAILED from saveSubtitleCache
(lines 802-826), INDEXEDDB_INIT_FAILED from initialize() (line 785),
which every operation awaits outside its try block, and the defensive
INDEXEDDB_NOT_INITIALIZED of the if (!this.db) checks — unreachable in
the model because a resolved initialize() always has set this.db, and a
rejected one propagates before the check is reached. -/
inductive DBError where
  | indexedDBNotAvailable
  | indexedDBInitFailed
  | indexedDBNotInitialized
  | cacheSaveFailed
deriving DecidableEq, Repr

/-- saveSubtitleCache (services/indexedDBStorage.ts, lines 802-826): when
IndexedDB is unavailable it throws INDEXEDDB_NOT_AVAILABLE; the
await this.initialize() outside the try block propagates
INDEXEDDB_INIT_FAILED when openDB rejected; when the underlying put
throws it rethrows CACHE_SAVE_FAILED; otherwise it stamps
cachedAt = Date.now() and expiresAt = Date.now() + CACHE_TTL over the
incoming entry and stores it. -/
def saveSubtitleCache (st : IndexedDBState) (now : ℤ) (cache : SubtitleCache) :
    Except DBError IndexedDBState :=
  if !st.available then
    .error .indexedDBNotAvailable
  else if st.initFails then
    .error .indexedDBInitFailed
  else if st.opFails then
    .error .cacheSaveFailed
  else
    .ok { st with
          store := storePut st.store
            { cache with cachedAt := now, expiresAt := now + CACHE_TTL } }

/-- loadSubtitleCache (services/indexedDBStorage.ts, lines 832-862):
returns null when IndexedDB is unavailable or the read inside the try
block throws; the await this.initialize() outside the try propagates
INDEXEDDB_INIT_FAILED when openDB rejected; on a hit whose
expiresAt < Date.now() the entry is deleted and null returned; otherwise
the entry is returned unchanged. The pair carries the possibly updated
store state. -/
def loadSubtitleCache (st : IndexedDBState) (now : ℤ) (videoId : String) :
    Except DBError (Option SubtitleCache) × IndexedDBState :=
  if !st.available then
    (.ok none, st)
  else if st.initFails then
    (.error .indexedDBInitFailed, st)
  else if st.opFails then
    (.ok none, st)
  else
    match storeGet st.store videoId with
    | none => (.ok none, st)
    | some cache =>
        if cache.expiresAt < now then
          (.ok none, { st with store := storeDelete st.store videoId })
        else
          (.ok (some cache), st)

/-- clearExpiredCache (services/indexedDBStorage.ts, lines 868-903):
deletes every entry found by a cursor over IDBKeyRange.upperBound(now)
on the by-expires index, i.e. every entry with expiresAt <= now, and
returns the number deleted; 0 without touching the store when
unavailable or when the transaction throws; the await this.initialize()
outside the try propagates INDEXEDDB_INIT_FAILED. -/
def clearExpiredCache (st : IndexedDBState) (now : ℤ) :
    Except DBError ℕ × IndexedDBState :=
  if !st.available then
    (.ok 0, st)
  else if st.initFails then
    (.error .indexedDBInitFailed, st)
  else if st.opFails then
    (.ok 0, st)
  else
    let expired := st.store.filter (fun c => decide (c.expiresAt ≤ now))
    (.ok expired.length,
     { st with store := st.store.filter (fun c => decide (now < c.expiresAt)) })

/-- clearVideoCache (services/indexedDBStorage.ts, lines 908-924): deletes
the entry for videoId; a no-op when unavailable or when the delete
throws; the await this.initialize() outside the try propagates
INDEXEDDB_INIT_FAILED. -/
def clearVideoCache (st : IndexedDBState) (videoId : String) :
    Except DBError Unit × IndexedDBState :=
  if !st.available then
    (.ok (), st)
  else if st.initFails then
    (.error .indexedDBInitFailed, st)
  else if st.opFails then
    (.ok (), st)
  else
    (.ok (), { st with store := storeDelete st.store videoId })

/-- clearAllCache (services/indexedDBStorage.ts, lines 929-945): clears
the store; a no-op when unavailable or when the clear throws; the
await this.initialize() outside the try propagates
INDEXEDDB_INIT_FAILED. -/
def clearAllCache (st : IndexedDBState) :
    Except DBError Unit × IndexedDBState :=
  if !st.available then
    (.ok (), st)
  else if st.initFails then
    (.error .indexedDBInitFailed, st)
  else if st.opFails then
    (.ok (), st)
  else
    (.ok (), { st with store := [] })

/-- getCacheStats (services/indexedDBStorage.ts, lines 950-980): the total
entry count and the count of entries with expiresAt <= now (the inclusive
upper-bound range of the by-expires index); zeros when unavailable or
when the transaction throws; the await this.initialize() outside the try
propagates INDEXEDDB_INIT_FAILED. The store is never mutated. -/
def getCacheStats (st : IndexedDBState) (now : ℤ) :
    Except DBError (ℕ × ℕ) :=
  if !st.available then
    .ok (0, 0)
  else if st.initFails then
    .error .indexedDBInitFailed
  else if st.opFails then
    .ok (0, 0)
  else
    .ok (st.store.length,
      (st.store.filter (fun c => decide (c.expiresAt ≤ now))).length)

/-- The result shape of SpeechRecognitionService.transcribeVideo, from
types/speechRecognition.ts (SpeechRecognitionResult); its source field is
always the literal speech-recognition in the source and is omitted. -/
structure SpeechRecognitionResult where
  videoId : String
  subtitles : List SubtitleSegment
  language : String
  cached : Bool
deriving DecidableEq, Repr

/-- The error object transcribeVideo throws on a non-ok HTTP response
(services/speechRecognition.ts, lines 89-104): message, code and status
from the response, plus the retryable flag computed at line 102. -/
structure TranscribeError where
  status : ℕ
  code : String
  message : String
  retryable : Bool
deriving DecidableEq, Repr

/-- The retryable classification at services/speechRecognition.ts line
102: an error is retryable exactly when the HTTP status is neither 501
nor 500. -/
def classifyRetryable (status : ℕ) : Bool :=
  status != 501 && status != 500

/-- The response of one invocation of the transcription API route, as
observed by the client fetch in transcribeVideo: either an ok body with
subtitles or a non-ok status with an error code and message. -/
inductive ApiResponse where
  | ok (subtitles : List SubtitleSegment)
  | httpError (status : ℕ) (code : String) (message : String)
deriving DecidableEq, Repr

/-- getCachedResult (services/speechRecognition.ts, lines 37-48): load
the cache entry and return its subtitles when its source is
speech-recognition, null otherwise; any error thrown by the load — in
particular INDEXEDDB_INIT_FAILED propagating out of it — is caught by
the surrounding try/catch and yields null. -/
def getCachedResult (st : IndexedDBState) (now : ℤ) (videoId : String) :
    Option (List SubtitleSegment) × IndexedDBState :=
  match loadSubtitleCache st now videoId with
  | (.ok (some cache), st') =>
      if cache.source = .speechRecognition then (some cache.subtitles, st')
      else (none, st')
  | (.ok none, st') => (none, st')
  | (.error _, st') => (none, st')

/-- cacheResult (services/speechRecognition.ts, lines 131-149): save a
speech-recognition entry; any thrown save error — NOT_AVAILABLE,
INIT_FAILED or SAVE_FAILED alike — is caught and logged, never
propagated, leaving the store as it was. -/
def cacheResult (st : IndexedDBState) (now : ℤ) (videoId : String)
    (subtitles : List SubtitleSegment) (language : String) :
    IndexedDBState :=
  match saveSubtitleCache st now
      { videoId := videoId
        subtitles := subtitles
        cachedAt := now
        expiresAt := now + CACHE_TTL
        source := .speechRecognition
        language := language } with
  | .ok st' => st'
  | .error _ => st

/-- The outcome of one transcribeVideo call: the resolved value or thrown
error, the cache state afterwards, and how many times the external
transcription route was invoked during the call. -/
structure TranscribeOutcome where
  result : Except TranscribeError SpeechRecognitionResult
  db : IndexedDBState
  extCalls : ℕ
deriving Repr

/-- The part of transcribeVideo after the cache check
(services/speechRecognition.ts, lines 76-122): invoke the route; on a
non-ok response throw the structured error with the line-102 retryable
flag; on success cache the result (errors swallowed) and resolve with
cached = false. -/
def callTranscribeApi (st : IndexedDBState) (now : ℤ)
    (videoId language : String) (api : ApiResponse) : TranscribeOutcome :=
  match api with
  | .httpError status code message =>
      { result := .error
          { status := status, code := code, message := message,
            retryable := classifyRetryable status }
        db := st
        extCalls := 1 }
  | .ok subtitles =>
      { result := .ok
          { videoId := videoId, subtitles := subtitles,
            language := language, cached := false }
        db := cacheResult st now videoId subtitles language
        extCalls := 1 }

/-- transcribeVideo (services/speechRecognition.ts, lines 56-123): unless
forceRefresh, a valid speech-recognition cache entry is returned
immediately with cached = true and no route invocation; otherwise the
route is invoked. -/
def transcribeVideo (st : IndexedDBState) (now : ℤ)
    (videoId language : String) (forceRefresh : Bool)
    (api : ApiResponse) : TranscribeOutcome :=
  if !forceRefresh then
    match getCachedResult st now videoId with
    | (some cached, st') =>
        { result := .ok
            { videoId := videoId, subtitles := cached
              language := language, cached := true }
          db := st'
          extCalls := 0 }
    | (none, st') => callTranscribeApi st' now videoId language api
  else
    callTranscribeApi st now videoId language api

/-- The failure causes of the transcription route
(app/api/bilibili/speech/transcribe/route.ts): a request without videoId,
a missing OPENAI_API_KEY, an OpenAI APIError carrying an optional status,
or any other thrown error (audio download failure, oversize audio, video
too long). -/
inductive RouteFailure where
  | missingVideoId
  | apiKeyNotConfigured
  | openAIError (status : Option ℕ)
  | otherError
deriving DecidableEq, Repr

/-- The HTTP status the route responds with for each failure cause
(route.ts: 400 at line 54, 500 at line 66, error.status || 500 in the
APIError branch, 500 in the catch-all). -/
def routeStatus : RouteFailure → ℕ
  | .missingVideoId => 400
  | .apiKeyNotConfigured => 500
  | .openAIError (some s) => s
  | .openAIError none => 500
  | .otherError => 500

/-- Modelled from the spec (section 7 and section 4.3): the
classification the specification prescribes for each route failure —
terminal for missing or invalid configuration, explicit not-implemented
conditions and malformed requests; retryable for transient network,
rate-limit and server errors. Written from the spec's words for
comparison with the code's classifyRetryable. -/
def specRetryable : RouteFailure → Bool
  | .missingVideoId => false
  | .apiKeyNotConfigured => false
  | .openAIError (some s) =>
      s == 429 || (decide (500 ≤ s) && decide (s ≤ 599) && s != 501)
  | .openAIError none => true
  | .otherError => true

/-- The control point of one in-flight transcribeVideo caller between the
await suspension points of services/speechRecognition.ts: start (about to
run the cache check, forceRefresh false), apiCall (cache miss observed,
about to invoke the route), caching (route response received, about to
write the cache and resolve), done (resolved). -/
inductive CallerPhase where
  | start
  | apiCall
  | caching (subtitles : List SubtitleSegment)
  | done (result : SpeechRecognitionResult)
deriving DecidableEq, Repr

/-- The shared state of two concurrent transcribeVideo callers for the
same videoId on the single-threaded event loop: the cache, the running
count of route invocations, and each caller's control point. -/
structure ConcurrentState where
  db : IndexedDBState
  extCalls : ℕ
  caller0 : CallerPhase
  caller1 : CallerPhase
deriving Repr

/-- One atomic stride of a transcribeVideo caller between suspension
points, following services/speechRecognition.ts lines 56-123 with
forceRefresh false, when the route responds successfully with api. -/
def strideCaller (now : ℤ) (videoId language : String)
    (api : List SubtitleSegment) (db : IndexedDBState) :
    CallerPhase → CallerPhase × IndexedDBState × ℕ
  | .start =>
      match getCachedResult db now videoId with
      | (some cached, db') =>
          (.done { videoId := videoId, subtitles := cached
                   language := language, cached := true }, db', 0)
      | (none, db') => (.apiCall, db', 0)
  | .apiCall => (.caching api, db, 1)
  | .caching subtitles =>
      (.done { videoId := videoId, subtitles := subtitles,
               language := language, cached := false },
       cacheResult db now videoId subtitles language, 0)
  | .done r => (.done r, db, 0)

/-- Run a schedule of the event loop: each entry names which caller takes
its next stride. -/
def runSchedule (now : ℤ) (videoId language : String)
    (api : List SubtitleSegment) :
    List (Fin 2) → ConcurrentState → ConcurrentState
  | [], s => s
  | i :: rest, s =>
      let s' :=
        if i = 0 then
          let (pc, db', k) :=
            strideCaller now videoId language api s.db s.caller0
          { s with caller0 := pc, db := db', extCalls := s.extCalls + k }
        else
          let (pc, db', k) :=
            strideCaller now videoId language api s.db s.caller1
          { s with caller1 := pc, db := db', extCalls := s.extCalls + k }
      runSchedule now videoId language api rest s'

/-- The speechRecognitionStatus values of the useSubtitles hook, from
SpeechRecognitionService.checkStatus and the page. -/
inductive SpeechStatus where
  | pending
  | processing
  | completed
  | failed
deriving DecidableEq, Repr

/-- The hook-provided values the transcription trigger effect of
app/video/[videoId]/page.tsx reads on one run: whether video metadata is
loaded, whether the speech-recognition path applies, the current speech
status, and whether subtitleError is NO_SUBTITLES. -/
structure PageInputs where
  hasVideo : Bool
  isSpeechRecognition : Bool
  speechStatus : SpeechStatus
  noSubtitlesError : Bool
deriving DecidableEq, Repr

/-- The transcription-related component state of VideoPage
(app/video/[videoId]/page.tsx, lines 48-53), plus a count of
speechRecognitionService.transcribeVideo invocations for observation. -/
structure VideoPageState where
  isTranscribing : Bool
  hasAttemptedTranscription : Bool
  isNonRetryableError : Bool
  transcriptionError : Option String
  extCalls : ℕ
deriving DecidableEq, Repr

/-- The events that touch the transcription state of VideoPage within one
video session: an effect run (lines 117-186) with the hook inputs of that
render, the in-flight call resolving or rejecting, the manual retry
button (handleRetryTranscription, lines 108-111), and dismissing the
error banner. -/
inductive PageEvent where
  | effectRun (inputs : PageInputs)
  | callResolved
  | callRejected (retryable : Bool) (status : ℕ) (message : String)
  | retryClick
  | dismissError
deriving DecidableEq, Repr

/-- One event of the VideoPage transcription state machine, following
app/video/[videoId]/page.tsx. The effect returns early when any guard of
lines 120-129 holds; otherwise, when subtitleError is NO_SUBTITLES and
the status is pending, it marks the attempt and invokes the service. A
rejection with retryable === false or status 501 sets
isNonRetryableError (lines 162-168); the retry button clears only
hasAttemptedTranscription and transcriptionError. -/
def pageStep (s : VideoPageState) : PageEvent → VideoPageState
  | .effectRun inputs =>
      if !inputs.hasVideo || !inputs.isSpeechRecognition || s.isTranscribing
          || inputs.speechStatus == .completed || s.hasAttemptedTranscription
          || s.isNonRetryableError then
        s
      else if inputs.noSubtitlesError && inputs.speechStatus == .pending then
        { s with isTranscribing := true
                 transcriptionError := none
                 hasAttemptedTranscription := true
                 extCalls := s.extCalls + 1 }
      else
        s
  | .callResolved => { s with isTranscribing := false }
  | .callRejected retryable status message =>
      let s' :=
        if retryable == false || status == 501 then
          { s with isNonRetryableError := true }
        else
          s
      { s' with transcriptionError := some message, isTranscribing := false }
  | .retryClick =>
      { s with hasAttemptedTranscription := false, transcriptionError := none }
  | .dismissError => { s with transcriptionError := none }

/-- Run a sequence of VideoPage events. -/
def pageRun (s : VideoPageState) (events : List PageEvent) : VideoPageState :=
  events.foldl pageStep s

theorem isActiveAt_eq_true (t : ℚ) (s : SubtitleSegment) :
    isActiveAt t s = true ↔ (s.startTime ≤ t ∧ t < s.endTime) := by
  simp [isActiveAt]

/-- C1: for every segment list sorted ascending by startTime and every
time t, findActiveSubtitle is deterministic (it is a pure function of its
arguments) and returns the first segment in list order with
startTime <= t < endTime, or none when no segment satisfies this. -/
theorem findActiveSubtitle_first_match (t : ℚ) (subs : List SubtitleSegment)
    (_hsorted : subs.Sorted (fun a b => a.startTime ≤ b.startTime)) :
    (findActiveSubtitle t subs = none ↔
      ∀ s ∈ subs, ¬(s.startTime ≤ t ∧ t < s.endTime)) ∧
    (∀ s, findActiveSubtitle t subs = some s →
      (s.startTime ≤ t ∧ t < s.endTime) ∧
      ∃ pre post, subs = pre ++ s :: post ∧
        ∀ x ∈ pre, ¬(x.startTime ≤ t ∧ t < x.endTime)) := by
  constructor
  · rw [findActiveSubtitle, List.find?_eq_none]
    simp only [isActiveAt_eq_true]
  · intro s hs
    rw [findActiveSubtitle, List.find?_eq_some] at hs
    obtain ⟨hact, pre, post, heq, hpre⟩ := hs
    refine ⟨(isActiveAt_eq_true t s).mp hact, pre, post, heq, ?_⟩
    intro x hx
    have := hpre x hx
    simp only [Bool.not_eq_true', ← Bool.not_eq_true] at this
    rw [← isActiveAt_eq_true t x]
    simpa using this

/-- Two overlapping demonstration segments, sorted by startTime. -/
def segA : SubtitleSegment :=
  { id := "subtitle-0", videoId := "v", startTime := 0, endTime := 5
    text := "hi", index := 0 }

def segB : SubtitleSegment :=
  { id := "subtitle-1", videoId := "v", startTime := 3, endTime := 10
    text := "there", index := 1 }

theorem findActiveSubtitle_first_match_witness :
    (findActiveSubtitle 4 [segA, segB] = none ↔
      ∀ s ∈ [segA, segB], ¬(s.startTime ≤ 4 ∧ (4:ℚ) < s.endTime)) ∧
    (∀ s, findActiveSubtitle 4 [segA, segB] = some s →
      (s.startTime ≤ 4 ∧ (4:ℚ) < s.endTime) ∧
      ∃ pre post, [segA, segB] = pre ++ s :: post ∧
        ∀ x ∈ pre, ¬(x.startTime ≤ 4 ∧ (4:ℚ) < x.endTime)) :=
  findActiveSubtitle_first_match 4 [segA, segB] (by
    constructor
    · intro b hb
      simp only [List.mem_cons, List.not_mem_nil, or_false] at hb
      subst hb
      show segA.startTime ≤ segB.startTime
      norm_num [segA, segB]
    · simp)

/-- The survival condition on a raw item, as the claim states it: both
times numeric, from nonnegative, to strictly greater than from, and the
content non-empty after trimming. -/
def claimKeeps (item : RawSubtitleItem) : Bool :=
  match item.fromTime, item.toTime with
  | some f, some t =>
      decide (0 ≤ f) && decide (f < t) && !((jsTrim item.content) == "")
  | _, _ => false

theorem string_eq_empty_of_length {s : String} (h : s.length = 0) :
    s = "" := by
  cases s with
  | mk data =>
    simp only [String.length_mk, List.length_eq_zero] at h
    subst h
    rfl

theorem validSubtitleItem_eq_claimKeeps (item : RawSubtitleItem) :
    validSubtitleItem item = claimKeeps item := by
  unfold validSubtitleItem claimKeeps
  rcases item.fromTime with _ | f <;> rcases item.toTime with _ | t <;> simp
  by_cases h1 : f < 0
  · simp [h1, not_le.mpr h1]
  · by_cases h2 : t ≤ f
    · simp [h1, h2, not_lt.mpr h2]
    · by_cases h3 : (jsTrim item.content) = ""
      · simp [h1, h2, h3]
      · have hlen : (jsTrim item.content).length ≠ 0 :=
          fun hc => h3 (string_eq_empty_of_length hc)
        simp [h1, h2, h3, hlen, not_lt.mp h1, not_le.mp h2]

/-- C6: parse drops exactly the items with a non-numeric time, inverted
or negative timing, or blank content; survivors are emitted in input
order, densely numbered from 0, with id subtitle-index and trimmed text;
a partially invalid array raises no error, a non-array input yields an
empty result, and the three-item example of the spec yields exactly the
single segment for text a at index 0. -/
theorem parseSubtitles_filtering :
    (∀ items vid,
      parseSubtitles (.arr items) vid =
        (items.filter claimKeeps).enum.map (fun p =>
          { id := "subtitle-" ++ toString p.1
            videoId := vid
            startTime := p.2.fromTime.getD 0
            endTime := p.2.toTime.getD 0
            text := jsTrim p.2.content
            index := p.1 })) ∧
    (∀ vid, parseSubtitles .notArray vid = []) ∧
    parseSubtitles
        (.arr [{ fromTime := some 0, toTime := some 2, content := "a" },
               { fromTime := some 5, toTime := some 3, content := "b" },
               { fromTime := some 6, toTime := some 8, content := "  " }]) "v"
      = [{ id := "subtitle-0", videoId := "v", startTime := 0, endTime := 2
           text := "a", index := 0 }] := by
  refine ⟨?_, fun vid => rfl, ?_⟩
  · intro items vid
    show (items.filter validSubtitleItem).enum.map _ = _
    rw [List.filter_congr (fun a _ => validSubtitleItem_eq_claimKeeps a)]
    rfl
  · rfl

/-- A cache entry whose expiresAt equals the observation instant: invalid
per the spec (valid iff now < expiresAt), yet not evicted by the code. -/
def boundaryEntry : SubtitleCache :=
  { videoId := "BV1", subtitles := [], cachedAt := 0, expiresAt := 100
    source := .speechRecognition, language := "zh" }

def boundaryDB : IndexedDBState :=
  { available := true, initFails := false, opFails := false
    store := [boundaryEntry] }

/-- C3 counterexample: at now = expiresAt = 100 the claim demands that
loadSubtitleCache return null and delete the entry, but the code's test
is the strict expiresAt < now, so the entry is returned and the store
keeps its single entry (stats still report one total entry). -/
theorem loadSubtitleCache_boundary_counterexample :
    boundaryEntry.expiresAt ≤ 100 ∧
    (loadSubtitleCache boundaryDB 100 "BV1").1 = .ok (some boundaryEntry) ∧
    getCacheStats (loadSubtitleCache boundaryDB 100 "BV1").2 100
      = .ok (1, 1) := by
  refine ⟨by decide, rfl, rfl⟩

theorem length_storeDelete_of_mem (store : List SubtitleCache)
    (videoId : String)
    (hkeys : store.Pairwise (fun a b => a.videoId ≠ b.videoId))
    (hmem : ∃ e ∈ store, e.videoId = videoId) :
    (storeDelete store videoId).length + 1 = store.length := by
  induction store with
  | nil => simp at hmem
  | cons hd tl ih =>
    rw [List.pairwise_cons] at hkeys
    obtain ⟨hhd, htl⟩ := hkeys
    by_cases hk : hd.videoId = videoId
    · have hkeep : ∀ c ∈ tl, (!(c.videoId == videoId)) = true := by
        intro c hc
        have : hd.videoId ≠ c.videoId := hhd c hc
        simp only [Bool.not_eq_eq_eq_not, Bool.not_true, beq_eq_false_iff_ne]
        intro hcv
        exact this (by rw [hk, hcv])
      have hdrop : (!(hd.videoId == videoId)) = false := by simp [hk]
      rw [storeDelete, List.filter_cons, hdrop]
      simp only [Bool.false_eq_true, if_false, List.length_cons]
      rw [show List.filter (fun c => !(c.videoId == videoId)) tl = tl from
        List.filter_eq_self.mpr hkeep]
    · obtain ⟨e, he, hev⟩ := hmem
      rcases List.mem_cons.mp he with rfl | he'
      · exact absurd hev hk
      · have := ih htl ⟨e, he', hev⟩
        simp only [storeDelete, List.filter_cons,
          beq_eq_false_iff_ne.mpr hk, Bool.not_false, List.length_cons]
        rw [← this]
        rfl

theorem storeGet_storeDelete (store : List SubtitleCache)
    (videoId : String) :
    storeGet (storeDelete store videoId) videoId = none := by
  rw [storeGet, List.find?_eq_none]
  intro c hc
  have := (List.mem_filter.mp hc).2
  simp only [Bool.not_eq_eq_eq_not, Bool.not_true, beq_eq_false_iff_ne] at this
  simpa using this

/-- C3 amended: for every stored entry that is strictly expired
(expiresAt < now), loadSubtitleCache returns null and deletes the entry:
afterwards the key is absent and, when the store keys are distinct as
IndexedDB guarantees, the total entry count reported by getCacheStats
has decreased by one. -/
theorem loadSubtitleCache_strict_expiry (st : IndexedDBState) (now : ℤ)
    (videoId : String) (entry : SubtitleCache)
    (hav : st.available = true) (hinit : st.initFails = false)
    (hop : st.opFails = false)
    (hget : storeGet st.store videoId = some entry)
    (hexp : entry.expiresAt < now)
    (hkeys : st.store.Pairwise (fun a b => a.videoId ≠ b.videoId)) :
    (loadSubtitleCache st now videoId).1 = .ok none ∧
    storeGet ((loadSubtitleCache st now videoId).2).store videoId = none ∧
    ∃ n e1 e2,
      getCacheStats st now = .ok (n + 1, e1) ∧
      getCacheStats (loadSubtitleCache st now videoId).2 now
        = .ok (n, e2) := by
  have hmem : ∃ e ∈ st.store, e.videoId = videoId := by
    refine ⟨entry, List.mem_of_find?_eq_some hget, ?_⟩
    have := List.find?_some hget
    simpa using this
  have hlen := length_storeDelete_of_mem st.store videoId hkeys hmem
  have hload : loadSubtitleCache st now videoId
      = (.ok none, { st with store := storeDelete st.store videoId }) := by
    rw [loadSubtitleCache]
    simp [hav, hinit, hop, hget, hexp]
  rw [hload]
  refine ⟨rfl, storeGet_storeDelete st.store videoId,
    (storeDelete st.store videoId).length,
    (st.store.filter (fun c => decide (c.expiresAt ≤ now))).length,
    (((storeDelete st.store videoId).filter
        (fun c => decide (c.expiresAt ≤ now)))).length, ?_, ?_⟩
  · simp only [getCacheStats, hav, hinit, hop, Bool.not_true,
      Bool.false_eq_true, if_false]
    rw [hlen]
  · simp [getCacheStats, hav, hinit, hop]

/-- A strictly expired entry and its store, for the amended-C3 witness. -/
def expiredEntry : SubtitleCache :=
  { videoId := "BV2", subtitles := [], cachedAt := 0, expiresAt := 100
    source := .speechRecognition, language := "zh" }

def expiredDB : IndexedDBState :=
  { available := true, initFails := false, opFails := false
    store := [expiredEntry] }

theorem loadSubtitleCache_strict_expiry_witness :
    (loadSubtitleCache expiredDB 200 "BV2").1 = .ok none ∧
    storeGet ((loadSubtitleCache expiredDB 200 "BV2").2).store "BV2" = none ∧
    ∃ n e1 e2,
      getCacheStats expiredDB 200 = .ok (n + 1, e1) ∧
      getCacheStats (loadSubtitleCache expiredDB 200 "BV2").2 200
        = .ok (n, e2) :=
  loadSubtitleCache_strict_expiry expiredDB 200 "BV2" expiredEntry rfl rfl
    rfl rfl (by decide) (by decide)

/-- A store in an environment without window.indexedDB, for the C4
counterexample. -/
def unavailableDB : IndexedDBState :=
  { available := false, initFails := false, opFails := false, store := [] }

/-- A store whose environment has IndexedDB but whose openDB rejected:
initialize() threw INDEXEDDB_INIT_FAILED and cached the rejection. -/
def initFailDB : IndexedDBState :=
  { available := true, initFails := true, opFails := false, store := [] }

/-- C4 counterexample: the claim that every cache operation degrades and
never throws fails twice over. With IndexedDB absent from the
environment, saveSubtitleCache throws INDEXEDDB_NOT_AVAILABLE; and with
IndexedDB present but openDB rejecting, the await this.initialize()
outside every try block propagates INDEXEDDB_INIT_FAILED out of the read
operation (and the other five alike). -/
theorem saveSubtitleCache_unavailable_throws_counterexample :
    saveSubtitleCache unavailableDB 0 boundaryEntry
      = .error .indexedDBNotAvailable ∧
    (loadSubtitleCache initFailDB 0 "BV1").1
      = .error .indexedDBInitFailed := ⟨rfl, rfl⟩

/-- C4 amended, the failure semantics of the six operations by regime.
When IndexedDB is absent (isAvailable() false): load, remove, clear,
sweep-expired and stats degrade to null/zero/no-op without throwing,
but save throws INDEXEDDB_NOT_AVAILABLE. When IndexedDB is present but
the database fails to open: initialize()'s INDEXEDDB_INIT_FAILED
propagates out of all six operations, because the await sits outside
every try block. When the database is open but the underlying operation
throws: the five non-save operations degrade throw-free and save throws
CACHE_SAVE_FAILED. The throws reach SpeechRecognitionService, whose
try/catch wrappers swallow them. -/
theorem cache_ops_failure_semantics (st : IndexedDBState) (now : ℤ)
    (videoId : String) (entry : SubtitleCache) :
    (st.available = false →
      loadSubtitleCache st now videoId = (.ok none, st) ∧
      clearVideoCache st videoId = (.ok (), st) ∧
      clearAllCache st = (.ok (), st) ∧
      clearExpiredCache st now = (.ok 0, st) ∧
      getCacheStats st now = .ok (0, 0) ∧
      saveSubtitleCache st now entry = .error .indexedDBNotAvailable) ∧
    (st.available = true → st.initFails = true →
      loadSubtitleCache st now videoId = (.error .indexedDBInitFailed, st) ∧
      clearVideoCache st videoId = (.error .indexedDBInitFailed, st) ∧
      clearAllCache st = (.error .indexedDBInitFailed, st) ∧
      clearExpiredCache st now = (.error .indexedDBInitFailed, st) ∧
      getCacheStats st now = .error .indexedDBInitFailed ∧
      saveSubtitleCache st now entry = .error .indexedDBInitFailed) ∧
    (st.available = true → st.initFails = false → st.opFails = true →
      loadSubtitleCache st now videoId = (.ok none, st) ∧
      clearVideoCache st videoId = (.ok (), st) ∧
      clearAllCache st = (.ok (), st) ∧
      clearExpiredCache st now = (.ok 0, st) ∧
      getCacheStats st now = .ok (0, 0) ∧
      saveSubtitleCache st now entry = .error .cacheSaveFailed) := by
  refine ⟨fun hun => ?_, fun hav hinit => ?_, fun hav hinit hop => ?_⟩
  · simp [loadSubtitleCache, clearVideoCache, clearAllCache,
      clearExpiredCache, getCacheStats, saveSubtitleCache, hun]
  · simp [loadSubtitleCache, clearVideoCache, clearAllCache,
      clearExpiredCache, getCacheStats, saveSubtitleCache, hav, hinit]
  · simp [loadSubtitleCache, clearVideoCache, clearAllCache,
      clearExpiredCache, getCacheStats, saveSubtitleCache, hav, hinit, hop]

/-- A store with the database open but every object-store operation
throwing, for the opFails regime of the C4 witness. -/
def opFailDB : IndexedDBState :=
  { available := true, initFails := false, opFails := true, store := [] }

theorem cache_ops_failure_semantics_witness :
    (loadSubtitleCache unavailableDB 0 "BV1" = (.ok none, unavailableDB) ∧
     clearVideoCache unavailableDB "BV1" = (.ok (), unavailableDB) ∧
     clearAllCache unavailableDB = (.ok (), unavailableDB) ∧
     clearExpiredCache unavailableDB 0 = (.ok 0, unavailableDB) ∧
     getCacheStats unavailableDB 0 = .ok (0, 0) ∧
     saveSubtitleCache unavailableDB 0 boundaryEntry
       = .error .indexedDBNotAvailable) ∧
    (loadSubtitleCache initFailDB 0 "BV1"
       = (.error .indexedDBInitFailed, initFailDB) ∧
     clearVideoCache initFailDB "BV1"
       = (.error .indexedDBInitFailed, initFailDB) ∧
     clearAllCache initFailDB = (.error .indexedDBInitFailed, initFailDB) ∧
     clearExpiredCache initFailDB 0
       = (.error .indexedDBInitFailed, initFailDB) ∧
     getCacheStats initFailDB 0 = .error .indexedDBInitFailed ∧
     saveSubtitleCache initFailDB 0 boundaryEntry
       = .error .indexedDBInitFailed) ∧
    (loadSubtitleCache opFailDB 0 "BV1" = (.ok none, opFailDB) ∧
     clearVideoCache opFailDB "BV1" = (.ok (), opFailDB) ∧
     clearAllCache opFailDB = (.ok (), opFailDB) ∧
     clearExpiredCache opFailDB 0 = (.ok 0, opFailDB) ∧
     getCacheStats opFailDB 0 = .ok (0, 0) ∧
     saveSubtitleCache opFailDB 0 boundaryEntry
       = .error .cacheSaveFailed) :=
  ⟨(cache_ops_failure_semantics unavailableDB 0 "BV1" boundaryEntry).1 rfl,
   (cache_ops_failure_semantics initFailDB 0 "BV1" boundaryEntry).2.1
     rfl rfl,
   (cache_ops_failure_semantics opFailDB 0 "BV1" boundaryEntry).2.2
     rfl rfl rfl⟩

/-- C8: saveSubtitleCache always stamps cachedAt = now and
expiresAt = now + CACHE_TTL, overwriting any prior entry for the videoId,
and a loadSubtitleCache of the same videoId at any instant before the
TTL elapses returns an entry with the same segments. -/
theorem save_then_load_roundtrip (st : IndexedDBState) (now later : ℤ)
    (entry : SubtitleCache)
    (hav : st.available = true) (hinit : st.initFails = false)
    (hop : st.opFails = false)
    (hfresh : later < now + CACHE_TTL) :
    ∃ st', saveSubtitleCache st now entry = .ok st' ∧
      storeGet st'.store entry.videoId
        = some { entry with cachedAt := now, expiresAt := now + CACHE_TTL } ∧
      (loadSubtitleCache st' later entry.videoId).1
        = .ok (some ({ entry with
            cachedAt := now, expiresAt := now + CACHE_TTL })) := by
  refine ⟨{ st with store := storePut st.store ({ entry with
    cachedAt := now, expiresAt := now + CACHE_TTL }) }, ?_, ?_, ?_⟩
  · rw [saveSubtitleCache]
    simp [hav, hinit, hop]
  · rw [storeGet, storePut]
    exact List.find?_cons_of_pos _ (beq_self_eq_true entry.videoId)
  · rw [loadSubtitleCache]
    have hgets : storeGet (storePut st.store ({ entry with
        cachedAt := now, expiresAt := now + CACHE_TTL })) entry.videoId
        = some ({ entry with
            cachedAt := now, expiresAt := now + CACHE_TTL }) := by
      rw [storeGet, storePut]
      exact List.find?_cons_of_pos _ (beq_self_eq_true entry.videoId)
    simp only [hav, hinit, hop, Bool.not_true, Bool.false_eq_true,
      if_false, hgets]
    rw [if_neg (by exact not_lt.mpr (le_of_lt hfresh))]

def freshEntry : SubtitleCache :=
  { videoId := "BV3", subtitles := [segA], cachedAt := 0, expiresAt := 0
    source := .speechRecognition, language := "zh" }

def emptyDB : IndexedDBState :=
  { available := true, initFails := false, opFails := false, store := [] }

theorem save_then_load_roundtrip_witness :
    ∃ st', saveSubtitleCache emptyDB 1000 freshEntry = .ok st' ∧
      storeGet st'.store freshEntry.videoId
        = some ({ freshEntry with
            cachedAt := 1000, expiresAt := 1000 + CACHE_TTL }) ∧
      (loadSubtitleCache st' 2000 freshEntry.videoId).1
        = .ok (some ({ freshEntry with
            cachedAt := 1000, expiresAt := 1000 + CACHE_TTL })) :=
  save_then_load_roundtrip emptyDB 1000 2000 freshEntry rfl rfl rfl
    (by decide)

/-- C5: with a valid unexpired speech-sourced cache entry present,
transcribeVideo with forceRefresh false returns that entry's segments
with cached = true and performs no external call, whatever the service
would have answered; with forceRefresh true the cache check is skipped,
the service is invoked once, and a successful transcription returns
cached = false and is written through to the cache. -/
theorem transcribeVideo_cache_policy (st : IndexedDBState) (now : ℤ)
    (videoId language : String) (entry : SubtitleCache)
    (hav : st.available = true) (hinit : st.initFails = false)
    (hop : st.opFails = false)
    (hget : storeGet st.store videoId = some entry)
    (hsrc : entry.source = .speechRecognition)
    (hvalid : now < entry.expiresAt) :
    (∀ api, transcribeVideo st now videoId language false api
      = ⟨.ok ⟨videoId, entry.subtitles, language, true⟩, st, 0⟩) ∧
    (∀ subtitles,
      (transcribeVideo st now videoId language true (.ok subtitles)).result
        = .ok ⟨videoId, subtitles, language, false⟩ ∧
      (transcribeVideo st now videoId language true
          (.ok subtitles)).extCalls = 1 ∧
      storeGet (transcribeVideo st now videoId language true
          (.ok subtitles)).db.store videoId
        = some ⟨videoId, subtitles, now, now + CACHE_TTL,
            .speechRecognition, language⟩) := by
  have hnot : ¬(entry.expiresAt < now) := not_lt.mpr (le_of_lt hvalid)
  have hload : loadSubtitleCache st now videoId
      = (.ok (some entry), st) := by
    rw [loadSubtitleCache]
    simp [hav, hinit, hop, hget, hnot]
  have hcached : getCachedResult st now videoId
      = (some entry.subtitles, st) := by
    simp [getCachedResult, hload, hsrc]
  constructor
  · intro api
    rw [transcribeVideo]
    simp [hcached]
  · intro subtitles
    refine ⟨rfl, rfl, ?_⟩
    show storeGet (cacheResult st now videoId subtitles language).store
        videoId = _
    rw [cacheResult, saveSubtitleCache]
    simp only [hav, hinit, hop, Bool.not_true, Bool.false_eq_true, if_false]
    rw [storeGet, storePut]
    exact List.find?_cons_of_pos _ (beq_self_eq_true videoId)

def speechEntry : SubtitleCache :=
  { videoId := "BV4", subtitles := [segA], cachedAt := 0, expiresAt := 1000
    source := .speechRecognition, language := "zh" }

def cachedDB : IndexedDBState :=
  { available := true, initFails := false, opFails := false
    store := [speechEntry] }

theorem transcribeVideo_cache_policy_witness :
    (∀ api, transcribeVideo cachedDB 500 "BV4" "zh" false api
      = ⟨.ok ⟨"BV4", speechEntry.subtitles, "zh", true⟩, cachedDB, 0⟩) ∧
    (∀ subtitles,
      (transcribeVideo cachedDB 500 "BV4" "zh" true (.ok subtitles)).result
        = .ok ⟨"BV4", subtitles, "zh", false⟩ ∧
      (transcribeVideo cachedDB 500 "BV4" "zh" true
          (.ok subtitles)).extCalls = 1 ∧
      storeGet (transcribeVideo cachedDB 500 "BV4" "zh" true
          (.ok subtitles)).db.store "BV4"
        = some ⟨"BV4", subtitles, 500, 500 + CACHE_TTL,
            .speechRecognition, "zh"⟩) :=
  transcribeVideo_cache_policy cachedDB 500 "BV4" "zh" speechEntry rfl rfl
    rfl rfl rfl (by decide)

/-- C10: when the cache write of a successful transcription result fails
(the store is unavailable, its initialization failed, or its operations
throw), transcribeVideo still resolves successfully with the transcribed
segments and cached = false, the store is left as it was, and no error
reaches the caller: the try/catch wrappers of getCachedResult and
cacheResult swallow every thrown cache error. -/
theorem transcribeVideo_swallows_cache_write_failure (st : IndexedDBState)
    (now : ℤ) (videoId language : String)
    (subtitles : List SubtitleSegment)
    (hfail : st.available = false ∨ st.initFails = true
      ∨ st.opFails = true) :
    ∀ forceRefresh,
      transcribeVideo st now videoId language forceRefresh (.ok subtitles)
        = ⟨.ok ⟨videoId, subtitles, language, false⟩, st, 1⟩ := by
  intro forceRefresh
  have hcached : getCachedResult st now videoId = (none, st) := by
    rw [getCachedResult, loadSubtitleCache]
    rcases hfail with h | h | h
    · simp [h]
    · cases hav : st.available <;> simp [h, hav]
    · cases hav : st.available <;>
        cases hinit : st.initFails <;> simp [h, hav, hinit]
  have hcr : cacheResult st now videoId subtitles language = st := by
    rw [cacheResult, saveSubtitleCache]
    rcases hfail with h | h | h
    · simp [h]
    · cases hav : st.available <;> simp [h, hav]
    · cases hav : st.available <;>
        cases hinit : st.initFails <;> simp [h, hav, hinit]
  cases forceRefresh with
  | false =>
      rw [transcribeVideo]
      simp [hcached, callTranscribeApi, hcr]
  | true =>
      rw [transcribeVideo]
      simp [callTranscribeApi, hcr]

def failingWriteDB : IndexedDBState :=
  { available := true, initFails := false, opFails := true, store := [] }

theorem transcribeVideo_swallows_cache_write_failure_witness :
    transcribeVideo failingWriteDB 0 "BV5" "zh" false (.ok [segA])
        = ⟨.ok ⟨"BV5", [segA], "zh", false⟩, failingWriteDB, 1⟩ ∧
    transcribeVideo failingWriteDB 0 "BV5" "zh" true (.ok [segA])
        = ⟨.ok ⟨"BV5", [segA], "zh", false⟩, failingWriteDB, 1⟩ :=
  ⟨transcribeVideo_swallows_cache_write_failure failingWriteDB 0 "BV5" "zh"
      [segA] (Or.inr (Or.inr rfl)) false,
   transcribeVideo_swallows_cache_write_failure failingWriteDB 0 "BV5" "zh"
      [segA] (Or.inr (Or.inr rfl)) true⟩

/-- C7 counterexample: the code classifies by HTTP status alone
(retryable iff the status is neither 501 nor 500), so a malformed
request — the route answers 400 — is marked retryable although the claim
requires it to be terminal, and a generic server error with status 500
is marked terminal although the claim requires it to be retryable. -/
theorem transcription_classification_counterexample :
    routeStatus .missingVideoId = 400 ∧
    classifyRetryable (routeStatus .missingVideoId) = true ∧
    specRetryable .missingVideoId = false ∧
    classifyRetryable (routeStatus (.openAIError (some 500))) = false ∧
    specRetryable (.openAIError (some 500)) = true := by decide

/-- C7 amended: every transcription failure surfaced as a non-ok HTTP
response is propagated to the caller as a structured error whose
retryable flag is computed from the status alone: retryable iff the
status is neither 501 nor 500. Hence malformed requests (status 400) and
rate limits (429) are marked retryable, while every 500-status failure —
missing configuration, but equally generic server errors — and 501 are
terminal. -/
theorem transcription_classification_amended :
    (∀ st now videoId language status code message,
      (transcribeVideo st now videoId language true
          (.httpError status code message)).result
        = .error ⟨status, code, message, classifyRetryable status⟩) ∧
    classifyRetryable (routeStatus .missingVideoId) = true ∧
    classifyRetryable (routeStatus .apiKeyNotConfigured) = false ∧
    classifyRetryable (routeStatus .otherError) = false ∧
    classifyRetryable (routeStatus (.openAIError none)) = false ∧
    classifyRetryable 429 = true ∧
    (∀ s, classifyRetryable (routeStatus (.openAIError (some s)))
        = (s != 501 && s != 500)) :=
  ⟨fun _ _ _ _ _ _ _ => rfl, by decide, by decide, by decide, by decide,
   by decide, fun s => rfl⟩

def demoSegs : List SubtitleSegment := [segA, segB]

def twoCallersInit : ConcurrentState :=
  { db := { available := true, initFails := false, opFails := false, store := [] }
    extCalls := 0, caller0 := .start, caller1 := .start }

/-- The event-loop interleaving in which the second caller starts before
the first resolves: both run their cache check, then both invoke the
external service, then both cache and resolve. -/
def overlappedSchedule : List (Fin 2) := [0, 1, 0, 1, 0, 1]

/-- C2 counterexample: transcribeVideo has no in-flight task map, so in
the interleaving where the second call's cache check runs before the
first call resolves, the external service is invoked twice, not once,
even though both callers complete. -/
theorem atMostOneInFlight_counterexample :
    (runSchedule 1000 "BV1" "zh" demoSegs overlappedSchedule
        twoCallersInit).extCalls ≠ 1 ∧
    (runSchedule 1000 "BV1" "zh" demoSegs overlappedSchedule
        twoCallersInit).caller0
      = .done ⟨"BV1", demoSegs, "zh", false⟩ ∧
    (runSchedule 1000 "BV1" "zh" demoSegs overlappedSchedule
        twoCallersInit).caller1
      = .done ⟨"BV1", demoSegs, "zh", false⟩ := by
  refine ⟨by decide, rfl, rfl⟩

/-- C2 amended: two concurrent transcribeVideo calls for the same videoId
whose cache checks both precede either completion each invoke the
external service — two invocations in total — and both callers resolve
with the service's segments and cached = false; there is no in-flight
de-duplication and no task registry. -/
theorem atMostOneInFlight_amended (now : ℤ) (videoId language : String)
    (api : List SubtitleSegment) :
    (runSchedule now videoId language api overlappedSchedule
        twoCallersInit).extCalls = 2 ∧
    (runSchedule now videoId language api overlappedSchedule
        twoCallersInit).caller0
      = .done ⟨videoId, api, language, false⟩ ∧
    (runSchedule now videoId language api overlappedSchedule
        twoCallersInit).caller1
      = .done ⟨videoId, api, language, false⟩ :=
  ⟨rfl, rfl, rfl⟩

/-- C9: once a transcription attempt has failed with a terminal
classification (isNonRetryableError set), no later sequence of page
events — effect re-runs with any hook inputs, resolutions, rejections,
manual retry clicks, error dismissals — invokes the external
transcription service again within the session: the invocation count is
unchanged and the terminal flag persists. -/
theorem terminal_failure_blocks_reinvocation (s : VideoPageState)
    (events : List PageEvent)
    (hterm : s.isNonRetryableError = true) :
    (pageRun s events).extCalls = s.extCalls ∧
    (pageRun s events).isNonRetryableError = true := by
  induction events generalizing s with
  | nil => exact ⟨rfl, hterm⟩
  | cons e rest ih =>
    have hstep : (pageStep s e).extCalls = s.extCalls ∧
        (pageStep s e).isNonRetryableError = true := by
      cases e with
      | effectRun inputs => simp [pageStep, hterm]
      | callResolved => exact ⟨rfl, hterm⟩
      | callRejected retryable status message =>
          simp only [pageStep]
          constructor
          · split <;> rfl
          · split <;> simp [hterm]
      | retryClick => exact ⟨rfl, hterm⟩
      | dismissError => exact ⟨rfl, hterm⟩
    have hrest := ih (pageStep s e) hstep.2
    rw [show pageRun s (e :: rest) = pageRun (pageStep s e) rest from rfl]
    exact ⟨hrest.1.trans hstep.1, hrest.2⟩

def terminalPageState : VideoPageState :=
  { isTranscribing := false, hasAttemptedTranscription := true
    isNonRetryableError := true, transcriptionError := some "err"
    extCalls := 1 }

/-- A post-terminal-failure event trace including a manual retry click
followed by an effect re-run with inputs that would otherwise trigger
transcription. -/
def postTerminalEvents : List PageEvent :=
  [.retryClick,
   .effectRun { hasVideo := true, isSpeechRecognition := true
                speechStatus := .pending, noSubtitlesError := true },
   .dismissError]

theorem terminal_failure_blocks_reinvocation_witness :
    (pageRun terminalPageState postTerminalEvents).extCalls
      = terminalPageState.extCalls ∧
    (pageRun terminalPageState postTerminalEvents).isNonRetryableError
      = true :=
  terminal_failure_blocks_reinvocation terminalPageState
    postTerminalEvents rfl

end BilibiliText
